import Mathlib

/-!
Verification of the pediatric insensible-water-loss calculator
(src/pediatric-iwl-calculator.tsx).

The calculation core is the pure function `calculateResults` together with
the age-banded normal-respiratory-rate lookup `getNormalRR`.  JavaScript
numbers are modelled as real numbers; the display-layer `toFixed` rounding
is presentation only and is not part of the computed values (the result
record here carries the underlying numbers that the source formats).
The source guards on the raw input strings (`if (!height || !weight) return;`);
an HTML number input yields the empty string both when the field is blank and
when its content is not numeric, so the absent / non-numeric cases are
modelled as `Option ℝ` inputs with `none` for the missing case.  The
`parseFloat(respiratoryRate) || 0` default is modelled by `Option.getD 0`.
-/

namespace PediatricIWL

/-- A normal-respiratory-rate band `{min, max, age}` as returned by
`getNormalRR` (source lines 20-25). -/
structure RRBand where
  min : ℝ
  max : ℝ
  age : String

/-- The four boolean risk-factor toggles (source lines 9-14). -/
structure AdditionalFactors where
  phototherapy : Bool
  radiantWarmer : Bool
  lowHumidity : Bool
  burns : Bool
deriving DecidableEq

/-- The result record built by `setResults` (source lines 69-83), carrying
the computed numbers (formatting stripped; the source's `feverAdjustment`
field is the fraction scaled by 100, as in line 79). -/
structure IWLResult where
  bsa : ℝ
  baseIWL_low : ℝ
  baseIWL_high : ℝ
  weightBasedIWL_low : ℝ
  weightBasedIWL_high : ℝ
  adjustedIWL_low : ℝ
  adjustedIWL_high : ℝ
  hourlyRate_low : ℝ
  hourlyRate_high : ℝ
  feverAdjustment : ℝ
  rrAdjustment : ℝ
  normalRR : RRBand
  additionalAdjustment : ℝ

/-- `getNormalRR` (source lines 19-26): normal respiratory rates by age,
selected by weight through a first-match conditional chain. -/
noncomputable def getNormalRR (weightKg : ℝ) : RRBand :=
  if weightKg < 3 then ⟨30, 60, "Newborn"⟩
  else if weightKg < 5 then ⟨30, 50, "0-3 months"⟩
  else if weightKg < 8 then ⟨25, 40, "3-6 months"⟩
  else if weightKg < 12 then ⟨20, 35, "6-12 months"⟩
  else if weightKg < 20 then ⟨20, 30, "1-3 years"⟩
  else ⟨15, 25, "3+ years"⟩

/-- The fever adjustment fraction (source line 48):
`temp > 37 ? (temp - 37) * 0.13 : 0`. -/
noncomputable def feverAdjustment (temp : ℝ) : ℝ :=
  if temp > 37 then (temp - 37) * 0.13 else 0

/-- The fever multiplier (source line 49): `1 + feverAdjustment`. -/
noncomputable def feverMultiplier (temp : ℝ) : ℝ :=
  1 + feverAdjustment temp

/-- The body of `calculateResults` after the input guard and parsing
(source lines 36-83), as a pure function of the parsed numbers. -/
noncomputable def calcIWL (heightCm weightKg temp rr : ℝ)
    (additionalFactors : AdditionalFactors) : IWLResult :=
  let bsa := Real.sqrt ((heightCm * weightKg) / 3600)
  let baseIWL_low := bsa * 400
  let baseIWL_high := bsa * 500
  let weightBasedIWL_low := weightKg * 15
  let weightBasedIWL_high := weightKg * 20
  let feverAdj := feverAdjustment temp
  let feverMult := feverMultiplier temp
  let normalRR := getNormalRR weightKg
  let rrAdjustment := if rr > normalRR.max then (rr - normalRR.max) * 2 * weightKg else 0
  let a1 := if additionalFactors.phototherapy then 0 + baseIWL_low * 0.2 else 0
  let a2 := if additionalFactors.radiantWarmer then a1 + baseIWL_low * 0.3 else a1
  let a3 := if additionalFactors.lowHumidity then a2 + baseIWL_low * 0.25 else a2
  let additionalAdjustment := if additionalFactors.burns then a3 + baseIWL_low * 0.5 else a3
  let adjustedIWL_low := baseIWL_low * feverMult + rrAdjustment + additionalAdjustment
  let adjustedIWL_high := baseIWL_high * feverMult + rrAdjustment + additionalAdjustment
  { bsa := bsa
    baseIWL_low := baseIWL_low
    baseIWL_high := baseIWL_high
    weightBasedIWL_low := weightBasedIWL_low
    weightBasedIWL_high := weightBasedIWL_high
    adjustedIWL_low := adjustedIWL_low
    adjustedIWL_high := adjustedIWL_high
    hourlyRate_low := adjustedIWL_low / 24
    hourlyRate_high := adjustedIWL_high / 24
    feverAdjustment := feverAdj * 100
    rrAdjustment := rrAdjustment
    normalRR := normalRR
    additionalAdjustment := additionalAdjustment }

/-- `calculateResults` (source lines 28-84): withholds the result when the
height or weight field is empty, otherwise computes `calcIWL` with the
respiratory rate defaulting to 0. -/
noncomputable def calculateResults (height weight : Option ℝ) (temperature : ℝ)
    (respiratoryRate : Option ℝ) (additionalFactors : AdditionalFactors) :
    Option IWLResult :=
  match height, weight with
  | some heightCm, some weightKg =>
      some (calcIWL heightCm weightKg temperature (respiratoryRate.getD 0)
        additionalFactors)
  | _, _ => none

/-- Spec-side reformulation (§4.1 table and §9 design note): the band table
as an ordered list of `(upperWeightBoundExclusive, band)` pairs. -/
def bandTable : List (ℝ × RRBand) :=
  [(3, ⟨30, 60, "Newborn"⟩),
   (5, ⟨30, 50, "0-3 months"⟩),
   (8, ⟨25, 40, "3-6 months"⟩),
   (12, ⟨20, 35, "6-12 months"⟩),
   (20, ⟨20, 30, "1-3 years"⟩)]

/-- Spec-side reformulation: first-match evaluation of the band table, with
the `3+ years` band as the fall-through default. -/
noncomputable def firstMatchBand (w : ℝ) : List (ℝ × RRBand) → RRBand
  | [] => ⟨15, 25, "3+ years"⟩
  | e :: rest => if w < e.1 then e.2 else firstMatchBand w rest

/-- The enumerated risk factors (spec §3, §9 design note). -/
inductive RiskFactor
  | phototherapy
  | radiantWarmer
  | lowHumidity
  | burns
deriving DecidableEq

/-- The fraction of the BSA low-end contributed by each risk factor
(source lines 60-63). -/
noncomputable def riskFraction : RiskFactor → ℝ
  | .phototherapy => 0.2
  | .radiantWarmer => 0.3
  | .lowHumidity => 0.25
  | .burns => 0.5

/-- The risk factors in source order (lines 60-63). -/
def riskList : List RiskFactor :=
  [.phototherapy, .radiantWarmer, .lowHumidity, .burns]

/-- Whether a given risk factor's toggle is set. -/
def isSet (f : AdditionalFactors) : RiskFactor → Bool
  | .phototherapy => f.phototherapy
  | .radiantWarmer => f.radiantWarmer
  | .lowHumidity => f.lowHumidity
  | .burns => f.burns

/-- Every band produced by `getNormalRR` has a positive `maxRate`. -/
theorem getNormalRR_max_pos (w : ℝ) : 0 < (getNormalRR w).max := by
  unfold getNormalRR
  split_ifs <;> norm_num

/-- C1: whenever the calculation produces a result, the final adjusted range
is `baseIWL * feverMultiplier + respiratoryAdjustment + riskFactorAdjustment`
on both bounds, with `baseIWL_low = bsa * 400 = sqrt(h*w/3600) * 400` and
`baseIWL_high = bsa * 500`; the weight-based alternative range stays
`[w*15, w*20]` and does not enter the adjusted range. -/
theorem adjusted_range_formula (h w t : ℝ) (rr : Option ℝ) (f : AdditionalFactors)
    (r : IWLResult) (hr : calculateResults (some h) (some w) t rr f = some r) :
    r.adjustedIWL_low
        = Real.sqrt ((h * w) / 3600) * 400 * feverMultiplier t
          + r.rrAdjustment + r.additionalAdjustment
      ∧ r.adjustedIWL_high
        = Real.sqrt ((h * w) / 3600) * 500 * feverMultiplier t
          + r.rrAdjustment + r.additionalAdjustment
      ∧ r.weightBasedIWL_low = w * 15
      ∧ r.weightBasedIWL_high = w * 20 := by
  have hr' : calcIWL h w t (rr.getD 0) f = r := by
    simpa [calculateResults] using hr
  subst hr'
  exact ⟨rfl, rfl, rfl, rfl⟩

/-- C1 witness: concrete instantiation at height 77 cm, weight 8.5 kg,
temperature 39 °C, respiratory rate 55, phototherapy and burns set. -/
theorem adjusted_range_formula_witness :
    calculateResults (some 77) (some 8.5) 39 (some 55) ⟨true, false, false, true⟩
        = some (calcIWL 77 8.5 39 55 ⟨true, false, false, true⟩)
      ∧ ((calcIWL 77 8.5 39 55 ⟨true, false, false, true⟩).adjustedIWL_low
          = Real.sqrt ((77 * 8.5) / 3600) * 400 * feverMultiplier 39
            + (calcIWL 77 8.5 39 55 ⟨true, false, false, true⟩).rrAdjustment
            + (calcIWL 77 8.5 39 55 ⟨true, false, false, true⟩).additionalAdjustment
        ∧ (calcIWL 77 8.5 39 55 ⟨true, false, false, true⟩).adjustedIWL_high
          = Real.sqrt ((77 * 8.5) / 3600) * 500 * feverMultiplier 39
            + (calcIWL 77 8.5 39 55 ⟨true, false, false, true⟩).rrAdjustment
            + (calcIWL 77 8.5 39 55 ⟨true, false, false, true⟩).additionalAdjustment
        ∧ (calcIWL 77 8.5 39 55 ⟨true, false, false, true⟩).weightBasedIWL_low = 8.5 * 15
        ∧ (calcIWL 77 8.5 39 55 ⟨true, false, false, true⟩).weightBasedIWL_high = 8.5 * 20) :=
  ⟨rfl, adjusted_range_formula 77 8.5 39 (some 55) ⟨true, false, false, true⟩
    (calcIWL 77 8.5 39 55 ⟨true, false, false, true⟩) rfl⟩

/-- C2: for positive height and weight the computed body surface area is
`sqrt((heightCm * weightKg) / 3600)` (Mosteller) and is strictly positive. -/
theorem bsa_mosteller (h w t rr : ℝ) (f : AdditionalFactors)
    (hh : 0 < h) (hw : 0 < w) :
    (calcIWL h w t rr f).bsa = Real.sqrt ((h * w) / 3600)
      ∧ 0 < (calcIWL h w t rr f).bsa := by
  refine ⟨rfl, ?_⟩
  show 0 < Real.sqrt ((h * w) / 3600)
  exact Real.sqrt_pos.mpr (by positivity)

/-- C2 witness: concrete instantiation at height 77 cm, weight 8.5 kg. -/
theorem bsa_mosteller_witness :
    0 < (77 : ℝ) ∧ 0 < (8.5 : ℝ)
      ∧ ((calcIWL 77 8.5 37 0 ⟨false, false, false, false⟩).bsa
            = Real.sqrt ((77 * 8.5) / 3600)
        ∧ 0 < (calcIWL 77 8.5 37 0 ⟨false, false, false, false⟩).bsa) :=
  ⟨by norm_num, by norm_num,
    bsa_mosteller 77 8.5 37 0 ⟨false, false, false, false⟩ (by norm_num) (by norm_num)⟩

/-- C3: the fever adjustment fraction is `(t - 37) * 0.13` for `t > 37` and
`0` otherwise; the multiplier `1 + fraction` is exactly 1 for `t ≤ 37` and
strictly increasing above 37; and the multiplier never touches the
weight-based alternative range, which stays `[w*15, w*20]` for every
temperature. -/
theorem fever_adjustment_spec (t t1 t2 h w rr : ℝ) (f : AdditionalFactors)
    (h1 : 37 < t1) (h2 : t1 < t2) :
    feverAdjustment t = (if t > 37 then (t - 37) * 0.13 else 0)
      ∧ (t ≤ 37 → feverMultiplier t = 1)
      ∧ feverMultiplier t1 < feverMultiplier t2
      ∧ (calcIWL h w t rr f).weightBasedIWL_low = w * 15
      ∧ (calcIWL h w t rr f).weightBasedIWL_high = w * 20 := by
  refine ⟨rfl, ?_, ?_, rfl, rfl⟩
  · intro ht
    simp [feverMultiplier, feverAdjustment, if_neg (not_lt.mpr ht)]
  · unfold feverMultiplier feverAdjustment
    rw [if_pos (show t1 > 37 by linarith), if_pos (show t2 > 37 by linarith)]
    nlinarith

/-- C3 witness: concrete instantiation at temperatures 36, 38 and 39 °C,
height 77 cm, weight 8.5 kg. -/
theorem fever_adjustment_spec_witness :
    37 < (38 : ℝ) ∧ (38 : ℝ) < 39
      ∧ (feverAdjustment 36 = (if (36 : ℝ) > 37 then ((36 : ℝ) - 37) * 0.13 else 0)
        ∧ ((36 : ℝ) ≤ 37 → feverMultiplier 36 = 1)
        ∧ feverMultiplier 38 < feverMultiplier 39
        ∧ (calcIWL 77 8.5 36 0 ⟨false, false, false, false⟩).weightBasedIWL_low = 8.5 * 15
        ∧ (calcIWL 77 8.5 36 0 ⟨false, false, false, false⟩).weightBasedIWL_high
            = 8.5 * 20) :=
  ⟨by norm_num, by norm_num,
    fever_adjustment_spec 36 38 39 77 8.5 0 ⟨false, false, false, false⟩
      (by norm_num) (by norm_num)⟩

/-- C4: the respiratory adjustment is 0 whenever the measured rate is at or
below the band's `maxRate` (in particular for an absent rate, modelled as
`none` and defaulted to 0), and equals `(rate - maxRate) * 2 * weightKg`
when the rate strictly exceeds `maxRate`. -/
theorem rr_adjustment_spec (h w t rr : ℝ) (f : AdditionalFactors) (r0 : IWLResult)
    (hr0 : calculateResults (some h) (some w) t none f = some r0) :
    (rr ≤ (getNormalRR w).max → (calcIWL h w t rr f).rrAdjustment = 0)
      ∧ ((getNormalRR w).max < rr →
          (calcIWL h w t rr f).rrAdjustment = (rr - (getNormalRR w).max) * 2 * w)
      ∧ r0.rrAdjustment = 0 := by
  have hr' : calcIWL h w t 0 f = r0 := by
    simpa [calculateResults] using hr0
  subst hr'
  refine ⟨?_, ?_, ?_⟩
  · intro hle
    show (if rr > (getNormalRR w).max then (rr - (getNormalRR w).max) * 2 * w else 0) = 0
    rw [if_neg (not_lt.mpr hle)]
  · intro hgt
    show (if rr > (getNormalRR w).max then (rr - (getNormalRR w).max) * 2 * w else 0)
        = (rr - (getNormalRR w).max) * 2 * w
    rw [if_pos hgt]
  · show (if (0 : ℝ) > (getNormalRR w).max then ((0 : ℝ) - (getNormalRR w).max) * 2 * w else 0)
        = 0
    rw [if_neg (not_lt.mpr (getNormalRR_max_pos w).le)]

/-- C4 witness: concrete instantiation at height 77 cm, weight 8.5 kg
(band maxRate 40), measured rate 55. -/
theorem rr_adjustment_spec_witness :
    calculateResults (some 77) (some 8.5) 37 none ⟨false, false, false, false⟩
        = some (calcIWL 77 8.5 37 0 ⟨false, false, false, false⟩)
      ∧ (((55 : ℝ) ≤ (getNormalRR 8.5).max →
            (calcIWL 77 8.5 37 55 ⟨false, false, false, false⟩).rrAdjustment = 0)
        ∧ ((getNormalRR 8.5).max < (55 : ℝ) →
            (calcIWL 77 8.5 37 55 ⟨false, false, false, false⟩).rrAdjustment
              = ((55 : ℝ) - (getNormalRR 8.5).max) * 2 * 8.5)
        ∧ (calcIWL 77 8.5 37 0 ⟨false, false, false, false⟩).rrAdjustment = 0) :=
  ⟨rfl, rr_adjustment_spec 77 8.5 37 55 ⟨false, false, false, false⟩
    (calcIWL 77 8.5 37 0 ⟨false, false, false, false⟩) rfl⟩

/-- C5: the band lookup is total on non-negative weights, agrees with
first-match evaluation of the ordered table of exclusive upper thresholds,
and assigns to each weight interval exactly the band the table states. -/
theorem band_lookup_total (w : ℝ) (hw : 0 ≤ w) :
    getNormalRR w = firstMatchBand w bandTable
      ∧ (w < 3 → getNormalRR w = ⟨30, 60, "Newborn"⟩)
      ∧ (3 ≤ w → w < 5 → getNormalRR w = ⟨30, 50, "0-3 months"⟩)
      ∧ (5 ≤ w → w < 8 → getNormalRR w = ⟨25, 40, "3-6 months"⟩)
      ∧ (8 ≤ w → w < 12 → getNormalRR w = ⟨20, 35, "6-12 months"⟩)
      ∧ (12 ≤ w → w < 20 → getNormalRR w = ⟨20, 30, "1-3 years"⟩)
      ∧ (20 ≤ w → getNormalRR w = ⟨15, 25, "3+ years"⟩) := by
  simp only [getNormalRR, bandTable, firstMatchBand]
  split_ifs <;>
    refine ⟨?_, ?_, ?_, ?_, ?_, ?_, ?_⟩ <;> intros <;>
      first
        | rfl
        | trivial
        | (exfalso; linarith)

/-- C5 witness: concrete instantiation at weight 9 kg (the 6-12 months
band). -/
theorem band_lookup_total_witness :
    0 ≤ (9 : ℝ)
      ∧ (getNormalRR 9 = firstMatchBand 9 bandTable
        ∧ ((9 : ℝ) < 3 → getNormalRR 9 = ⟨30, 60, "Newborn"⟩)
        ∧ (3 ≤ (9 : ℝ) → (9 : ℝ) < 5 → getNormalRR 9 = ⟨30, 50, "0-3 months"⟩)
        ∧ (5 ≤ (9 : ℝ) → (9 : ℝ) < 8 → getNormalRR 9 = ⟨25, 40, "3-6 months"⟩)
        ∧ (8 ≤ (9 : ℝ) → (9 : ℝ) < 12 → getNormalRR 9 = ⟨20, 35, "6-12 months"⟩)
        ∧ (12 ≤ (9 : ℝ) → (9 : ℝ) < 20 → getNormalRR 9 = ⟨20, 30, "1-3 years"⟩)
        ∧ (20 ≤ (9 : ℝ) → getNormalRR 9 = ⟨15, 25, "3+ years"⟩)) :=
  ⟨by norm_num, band_lookup_total 9 (by norm_num)⟩

/-- C6: the risk-factor adjustment is the sum, over exactly the selected
flags, of the flag's fraction (0.20, 0.30, 0.25, 0.50) times the pre-fever
BSA low end `sqrt(h*w/3600) * 400`; the sum is order-independent (it is the
same over any permutation of the factor list) with no interaction or cap. -/
theorem risk_adjustment_sum (h w t rr : ℝ) (f : AdditionalFactors)
    (l : List RiskFactor) (hl : l.Perm riskList) :
    (calcIWL h w t rr f).additionalAdjustment
      = ((l.filter (fun x => isSet f x)).map riskFraction).sum
          * (Real.sqrt ((h * w) / 3600) * 400) := by
  have hsum : ((l.filter (fun x => isSet f x)).map riskFraction).sum
      = ((riskList.filter (fun x => isSet f x)).map riskFraction).sum :=
    List.Perm.sum_eq (List.Perm.map _ (List.Perm.filter _ hl))
  rw [hsum]
  obtain ⟨p, q, u, b⟩ := f
  cases p <;> cases q <;> cases u <;> cases b <;>
    simp [calcIWL, riskList, isSet, riskFraction] <;> ring

/-- C6 witness: concrete instantiation with phototherapy and burns set, at
height 77 cm, weight 8.5 kg, the factor list in source order. -/
theorem risk_adjustment_sum_witness :
    riskList.Perm riskList
      ∧ (calcIWL 77 8.5 37 0 ⟨true, false, false, true⟩).additionalAdjustment
        = ((riskList.filter (fun x => isSet ⟨true, false, false, true⟩ x)).map
            riskFraction).sum * (Real.sqrt ((77 * 8.5) / 3600) * 400) :=
  ⟨List.Perm.refl riskList,
    risk_adjustment_sum 77 8.5 37 0 ⟨true, false, false, true⟩ riskList
      (List.Perm.refl riskList)⟩

/-- C7: when the height or the weight field is absent, the calculation
returns no result, whatever the temperature, respiratory rate and flags;
the function is total, so no exception is possible. -/
theorem missing_input_no_result (height weight : Option ℝ) (t : ℝ)
    (rr : Option ℝ) (f : AdditionalFactors)
    (hmiss : height = none ∨ weight = none) :
    calculateResults height weight t rr f = none := by
  rcases hmiss with hq | hq <;> subst hq
  · cases weight <;> rfl
  · cases height <;> rfl

/-- C7 witness: concrete instantiation with absent height and every other
field supplied. -/
theorem missing_input_no_result_witness :
    ((none : Option ℝ) = none ∨ (some (8.5 : ℝ)) = none)
      ∧ calculateResults none (some 8.5) 39 (some 22) ⟨true, true, true, true⟩ = none :=
  ⟨Or.inl rfl,
    missing_input_no_result none (some 8.5) 39 (some 22) ⟨true, true, true, true⟩
      (Or.inl rfl)⟩

/-- C8: both bounds of the hourly rate range are the corresponding bound of
the adjusted daily range divided by 24, exactly. -/
theorem hourly_rate_div24 (h w t : ℝ) (rr : Option ℝ) (f : AdditionalFactors)
    (r : IWLResult) (hr : calculateResults (some h) (some w) t rr f = some r) :
    r.hourlyRate_low = r.adjustedIWL_low / 24
      ∧ r.hourlyRate_high = r.adjustedIWL_high / 24 := by
  have hr' : calcIWL h w t (rr.getD 0) f = r := by
    simpa [calculateResults] using hr
  subst hr'
  exact ⟨rfl, rfl⟩

/-- C8 witness: concrete instantiation at height 77 cm, weight 8.5 kg. -/
theorem hourly_rate_div24_witness :
    calculateResults (some 77) (some 8.5) 39 (some 55) ⟨false, true, false, false⟩
        = some (calcIWL 77 8.5 39 55 ⟨false, true, false, false⟩)
      ∧ ((calcIWL 77 8.5 39 55 ⟨false, true, false, false⟩).hourlyRate_low
          = (calcIWL 77 8.5 39 55 ⟨false, true, false, false⟩).adjustedIWL_low / 24
        ∧ (calcIWL 77 8.5 39 55 ⟨false, true, false, false⟩).hourlyRate_high
          = (calcIWL 77 8.5 39 55 ⟨false, true, false, false⟩).adjustedIWL_high / 24) :=
  ⟨rfl, hourly_rate_div24 77 8.5 39 (some 55) ⟨false, true, false, false⟩
    (calcIWL 77 8.5 39 55 ⟨false, true, false, false⟩) rfl⟩

/-- C9: weight 0 with a positive height is not rejected: a result is still
produced, with `bsa = 0` and every derived range degenerating to 0. -/
theorem zero_weight_not_rejected (h t : ℝ) (rr : Option ℝ) (f : AdditionalFactors)
    (hh : 0 < h) :
    calculateResults (some h) (some 0) t rr f = some (calcIWL h 0 t (rr.getD 0) f)
      ∧ (calcIWL h 0 t (rr.getD 0) f).bsa = 0
      ∧ (calcIWL h 0 t (rr.getD 0) f).baseIWL_low = 0
      ∧ (calcIWL h 0 t (rr.getD 0) f).baseIWL_high = 0
      ∧ (calcIWL h 0 t (rr.getD 0) f).weightBasedIWL_low = 0
      ∧ (calcIWL h 0 t (rr.getD 0) f).weightBasedIWL_high = 0
      ∧ (calcIWL h 0 t (rr.getD 0) f).adjustedIWL_low = 0
      ∧ (calcIWL h 0 t (rr.getD 0) f).adjustedIWL_high = 0
      ∧ (calcIWL h 0 t (rr.getD 0) f).hourlyRate_low = 0
      ∧ (calcIWL h 0 t (rr.getD 0) f).hourlyRate_high = 0 := by
  refine ⟨rfl, ?_, ?_, ?_, ?_, ?_, ?_, ?_, ?_, ?_⟩ <;>
    simp [calcIWL]

/-- C9 witness: concrete instantiation at height 77 cm, weight 0 kg, with a
fever, a high respiratory rate and all flags set. -/
theorem zero_weight_not_rejected_witness :
    0 < (77 : ℝ)
      ∧ (calculateResults (some 77) (some 0) 39 (some 70) ⟨true, true, true, true⟩
            = some (calcIWL 77 0 39 70 ⟨true, true, true, true⟩)
        ∧ (calcIWL 77 0 39 70 ⟨true, true, true, true⟩).bsa = 0
        ∧ (calcIWL 77 0 39 70 ⟨true, true, true, true⟩).baseIWL_low = 0
        ∧ (calcIWL 77 0 39 70 ⟨true, true, true, true⟩).baseIWL_high = 0
        ∧ (calcIWL 77 0 39 70 ⟨true, true, true, true⟩).weightBasedIWL_low = 0
        ∧ (calcIWL 77 0 39 70 ⟨true, true, true, true⟩).weightBasedIWL_high = 0
        ∧ (calcIWL 77 0 39 70 ⟨true, true, true, true⟩).adjustedIWL_low = 0
        ∧ (calcIWL 77 0 39 70 ⟨true, true, true, true⟩).adjustedIWL_high = 0
        ∧ (calcIWL 77 0 39 70 ⟨true, true, true, true⟩).hourlyRate_low = 0
        ∧ (calcIWL 77 0 39 70 ⟨true, true, true, true⟩).hourlyRate_high = 0) :=
  ⟨by norm_num,
    zero_weight_not_rejected 77 39 (some 70) ⟨true, true, true, true⟩ (by norm_num)⟩

/-- C10: for positive height and weight, every range of a produced result is
well-ordered: low ≤ high for the base, weight-based, adjusted and hourly
ranges. -/
theorem ranges_well_ordered (h w t : ℝ) (rr : Option ℝ) (f : AdditionalFactors)
    (r : IWLResult) (hh : 0 < h) (hw : 0 < w)
    (hr : calculateResults (some h) (some w) t rr f = some r) :
    r.baseIWL_low ≤ r.baseIWL_high
      ∧ r.weightBasedIWL_low ≤ r.weightBasedIWL_high
      ∧ r.adjustedIWL_low ≤ r.adjustedIWL_high
      ∧ r.hourlyRate_low ≤ r.hourlyRate_high := by
  have hr' : calcIWL h w t (rr.getD 0) f = r := by
    simpa [calculateResults] using hr
  subst hr'
  have hb : 0 ≤ Real.sqrt ((h * w) / 3600) := Real.sqrt_nonneg _
  have hm : 1 ≤ feverMultiplier t := by
    unfold feverMultiplier feverAdjustment
    split_ifs with hgt
    · nlinarith
    · norm_num
  have hprod : 0 ≤ Real.sqrt ((h * w) / 3600) * feverMultiplier t :=
    mul_nonneg hb (le_trans zero_le_one hm)
  simp only [calcIWL]
  refine ⟨?_, ?_, ?_, ?_⟩ <;> nlinarith

/-- C10 witness: concrete instantiation at height 77 cm, weight 8.5 kg,
temperature 39 °C, respiratory rate 55, all flags set. -/
theorem ranges_well_ordered_witness :
    0 < (77 : ℝ) ∧ 0 < (8.5 : ℝ)
      ∧ calculateResults (some 77) (some 8.5) 39 (some 55) ⟨true, true, true, true⟩
          = some (calcIWL 77 8.5 39 55 ⟨true, true, true, true⟩)
      ∧ ((calcIWL 77 8.5 39 55 ⟨true, true, true, true⟩).baseIWL_low
            ≤ (calcIWL 77 8.5 39 55 ⟨true, true, true, true⟩).baseIWL_high
        ∧ (calcIWL 77 8.5 39 55 ⟨true, true, true, true⟩).weightBasedIWL_low
            ≤ (calcIWL 77 8.5 39 55 ⟨true, true, true, true⟩).weightBasedIWL_high
        ∧ (calcIWL 77 8.5 39 55 ⟨true, true, true, true⟩).adjustedIWL_low
            ≤ (calcIWL 77 8.5 39 55 ⟨true, true, true, true⟩).adjustedIWL_high
        ∧ (calcIWL 77 8.5 39 55 ⟨true, true, true, true⟩).hourlyRate_low
            ≤ (calcIWL 77 8.5 39 55 ⟨true, true, true, true⟩).hourlyRate_high) :=
  ⟨by norm_num, by norm_num, rfl,
    ranges_well_ordered 77 8.5 39 (some 55) ⟨true, true, true, true⟩
      (calcIWL 77 8.5 39 55 ⟨true, true, true, true⟩)
      (by norm_num) (by norm_num) rfl⟩

end PediatricIWL
